import Mathlib

/-!
Verification of the compound-field engine of the schematics repository
(`src/schematics/types/compound.py` and `src/schematics/undefined.py`).

Python values flowing through the compound-field code are embedded as the
inductive type `PyVal`; dictionaries are association lists with string keys
(the only key shape the claims exercise), iterated in insertion order like
Python dicts.  Exceptions are embedded as `PyErr` values returned through
`Except`.  The modules `transforms.py` and `exceptions.py` are not part of
the excerpt, so the constants and hierarchy they provide are modelled from
the spec where noted.
-/

namespace Schematics

/-- Embedded Python values.  `emptyListMarker` and `emptyDictMarker` are
modelled from the spec: they stand for the `EMPTY_LIST` / `EMPTY_DICT`
empty-container marker constants imported from the `transforms` module,
which is not under `src/`; the spec calls them opaque sentinel markers, so
they are distinct constructors unequal to every other value.  `obj` covers
other opaque Python objects (model instances, etc.). -/
inductive PyVal where
  | none
  | str (s : String)
  | int (n : Int)
  | bool (b : Bool)
  | list (xs : List PyVal)
  | dict (entries : List (String × PyVal))
  | emptyListMarker
  | emptyDictMarker
  | obj (tag : String)

/-- `v is None` (and `v == None`, which coincides for the embedded values). -/
def PyVal.isNone : PyVal → Bool
  | .none => true
  | _ => false

/-- Python truthiness (`bool(v)`) for the embedded values: `None`, empty
strings, zero, `False` and empty containers are falsy; the opaque marker
objects and `obj` values are truthy like plain Python objects. -/
def pyTruthy : PyVal → Bool
  | .none => false
  | .str s => !(s == "")
  | .int n => !(n == 0)
  | .bool b => b
  | .list xs => !xs.isEmpty
  | .dict es => !es.isEmpty
  | .emptyListMarker => true
  | .emptyDictMarker => true
  | .obj _ => true

/-- Python `len(v)` for the sized embedded values (only ever consulted on
containers in the embedded code, which guards it behind truthiness). -/
def pyLen : PyVal → Nat
  | .str s => s.length
  | .list xs => xs.length
  | .dict es => es.length
  | _ => 0

/-- Python `type(v).__name__` for the embedded values. -/
def pyTypeName : PyVal → String
  | .none => "NoneType"
  | .str _ => "str"
  | .int _ => "int"
  | .bool _ => "bool"
  | .list _ => "list"
  | .dict _ => "dict"
  | .emptyListMarker => "str"
  | .emptyDictMarker => "str"
  | .obj t => t

/-- Payloads carried by embedded exceptions: a message string, a flat list
of messages, a mapping from locator to nested payload, or a stored
exception object (`DictType.validate_items` stores the caught exception
itself as the value of the report). -/
inductive ErrVal where
  | msg (s : String)
  | seq (xs : List ErrVal)
  | map (entries : List (String × ErrVal))
  | exc (payload : ErrVal)

/-- Embedded exceptions of the engine.  `modelValidation` and
`stopValidation` carry the structured message map that
`MultiType.validate` merges; `validation` is the plain `ValidationError`.
`valueError` / `keyError` model the builtin exceptions that can escape
`ListType._force_list`. -/
inductive PyErr where
  | conversion (message : String)
  | validation (messages : ErrVal)
  | modelValidation (messages : List (String × ErrVal))
  | stopValidation (messages : List (String × ErrVal))
  | valueError
  | keyError
  | attributeError

/-! ### The Undefined sentinel (`src/schematics/undefined.py`) -/

/-- The concrete class of a sentinel instance: either `UndefinedType`
itself (`base`) or a subclass variant identified by its name.  Because of
`__new__`'s per-class instance cache, each class has exactly one instance,
so an instance is fully described by its class. -/
inductive UClass where
  | base
  | sub (name : String)
  deriving DecidableEq

/-- Values the sentinel's comparison methods and `has_value` can face: a
sentinel instance of some concrete class, `None`, an integer, or some
other object. -/
inductive UVal where
  | undef (cls : UClass)
  | none
  | int (n : Int)
  | other (tag : String)
  deriving DecidableEq

/-- `UndefinedType.__eq__(self, other)`:
`type(self) is type(other) or (type(other) is UndefinedType and
issubclass(type(self), UndefinedType))`.  `self` is always an instance of
`UndefinedType` or a subclass, so the `issubclass` conjunct is true; for a
non-sentinel `other` both disjuncts are false. -/
def undefEq (self : UClass) (other : UVal) : Bool :=
  match other with
  | .undef cls => self == cls || cls == UClass.base
  | _ => false

/-- The Python expression `arg != Undefined`.  When `arg` is a sentinel
instance its own `__ne__` (i.e. `not self == other`) answers; otherwise the
left operand's default `__ne__` returns `NotImplemented` and Python falls
back to the reflected `Undefined.__ne__(arg)`, again `not (Undefined ==
arg)`. -/
def neUndefined (arg : UVal) : Bool :=
  match arg with
  | .undef cls => !(undefEq cls (.undef .base))
  | v => !(undefEq .base v)

/-- Python's `a == b` between two sentinel instances, following the
interpreter's rich-comparison dispatch: when the right operand's type is
a proper subclass of the left operand's type, the right operand's
(possibly inherited) `__eq__` is consulted first; in the modelled class
lattice — `UndefinedType` and its direct subclass variants — that case
is exactly `a = base ∧ b ≠ base`.  `UndefinedType.__eq__` always returns
a bool, never `NotImplemented`, so whichever method is consulted first is
final. -/
def pyEqSentinels (a b : UClass) : Bool :=
  if a = UClass.base ∧ ¬ b = UClass.base then undefEq b (UVal.undef a)
  else undefEq a (UVal.undef b)

/-- `has_value(arg)`: `arg != Undefined and arg is not None`. -/
def has_value (arg : UVal) : Bool :=
  neUndefined arg && !(arg == UVal.none)

/-! ### `MultiType.validate` (`compound.py` lines 16-34) -/

/-- A structured message map, as carried by `ModelValidationError.messages`
and accumulated in the `errors` dict of `MultiType.validate`: an
insertion-ordered Python dict from locator to payload. -/
abbrev Messages := List (String × ErrVal)

/-- Python `d[k] = v` on an insertion-ordered dict: overwrite in place when
the key is present, append otherwise. -/
def dictSet (d : Messages) (k : String) (v : ErrVal) : Messages :=
  if d.any (fun p => p.1 == k) then
    d.map (fun p => if p.1 == k then (k, v) else p)
  else d ++ [(k, v)]

/-- Python `d.update(u)` on insertion-ordered dicts: set every entry of `u`
in turn. -/
def dictUpdate (d u : Messages) : Messages :=
  u.foldl (fun acc p => dictSet acc p.1 p.2) d

/-- The observable outcome of calling one validator from
`MultiType.validate`: return normally, raise a `ModelValidationError`
(caught and merged), raise a `StopValidation` (a `ModelValidationError`
subclass: caught, merged, and the loop breaks), or raise anything else
(not caught by the `except ModelValidationError` clause). -/
inductive ValidatorOutcome where
  | ok
  | modelErr (messages : Messages)
  | stopErr (messages : Messages)
  | uncaught (e : PyErr)

/-- A validator callable: takes the value and the `env` keyword. -/
abbrev Validator := PyVal → PyVal → ValidatorOutcome

/-- The `for validator in self.validators` loop of `MultiType.validate`,
threading the `errors` accumulator; returns the final accumulator, or the
exception that escaped. -/
def runValidators (value env : PyVal) (errors : Messages) :
    List Validator → Except PyErr Messages
  | [] => .ok errors
  | v :: rest =>
    match v value env with
    | .ok => runValidators value env errors rest
    | .modelErr msgs => runValidators value env (dictUpdate errors msgs) rest
    | .stopErr msgs => .ok (dictUpdate errors msgs)
    | .uncaught e => .error e

/-- `MultiType.validate(self, value, env)`: run the validators, then
`if errors: raise ValidationError(errors)` else `return value`. -/
def multiTypeValidate (validators : List Validator) (value env : PyVal) :
    Except PyErr PyVal :=
  match runValidators value env [] validators with
  | .error e => .error e
  | .ok errors =>
      if errors.isEmpty then .ok value
      else .error (.validation (.map errors))

/-! ### `ModelType` (`compound.py` lines 58-129) -/

/-- The external model-class collaborator (spec §6): the class name, the
`isinstance` test against the class, and `model_class().import_data(raw,
mapping=mapping, context=context, strict=strict, env=env)` — construction
of the fresh instance followed by the import routine, which the core does
not own, collapsed into one function returning the populated instance. -/
structure ModelClass where
  name : String
  isInstance : PyVal → Bool
  importData : PyVal → List (String × PyVal) → PyVal → Bool → PyVal → PyVal

/-- `ModelType.to_native` (lines 76-94).  `mapping` is the keyword argument
before the `mapping = mapping or {}` defaulting line (an absent argument
is `Option.none`). -/
def modelTypeToNative (mc : ModelClass) (strict : Bool) (value : PyVal)
    (mapping : Option (List (String × PyVal))) (context env : PyVal) :
    Except PyErr PyVal :=
  let mapping := mapping.getD []
  if value.isNone then .ok .none
  else if mc.isInstance value then .ok value
  else
    match value with
    | .dict es => .ok (mc.importData (.dict es) mapping context strict env)
    | v => .error (.conversion
        ("Please use a mapping for this field or " ++ mc.name ++
         " instance instead of " ++ pyTypeName v ++ "."))

/-- `ModelType.export_loop` (lines 109-129).  The recursive
`transforms.export_loop` called on line 120 lives in `transforms.py`,
which is not under `src/`, so the shaping of the instance is abstracted as
the argument `shape`: it closes over `field_converter`, `role`,
`print_none`, `serialize_when_undefined` and the class selection of lines
115-118, and `shape modelInstance` is the `shaped` value of line 120 (a
mapping, or `None` when the recursive shaping signals omission).  Lines
124-129 then either return `shaped` or fall off the end of the method —
Python's implicit `None`, the omission signal, embedded as `.none`. -/
def modelTypeExportLoop (shape : PyVal → PyVal) (selfAllowNone printNone : Bool)
    (modelInstance : PyVal) : PyVal :=
  let shaped := shape modelInstance
  if pyTruthy shaped && pyLen shaped == 0 && selfAllowNone then shaped
  else if pyTruthy shaped then shaped
  else if printNone then shaped
  else .none

/-! ### `ListType` (`compound.py` lines 132-242) -/

/-- One decimal digit. -/
def decDigit (c : Char) : Option Nat :=
  if c.isDigit then Option.some (c.toNat - Char.toNat (Char.ofNat 48))
  else Option.none

/-- Value of a non-empty all-digit character sequence. -/
def digitsVal (cs : List Char) : Option Nat :=
  if cs.isEmpty then Option.none
  else cs.foldl (fun acc c =>
    match acc, decDigit c with
    | Option.some a, Option.some d => Option.some (a * 10 + d)
    | _, _ => Option.none) (Option.some 0)

/-- Python `int(s)` on the optional-sign decimal forms the claims
exercise (no surrounding whitespace); `Option.none` models the
`ValueError` raised on anything else. -/
def pyInt (s : String) : Option Int :=
  match s.data with
  | '-' :: cs => (digitsVal cs).map (fun n => -(n : Int))
  | '+' :: cs => (digitsVal cs).map (fun n => (n : Int))
  | cs => (digitsVal cs).map (fun n => (n : Int))

/-- Python `unicode(k)` / `str(k)` on an integer: its decimal string. -/
def intToStr (n : Int) : String := toString n

/-- Python `sorted` on a list of integers.  Python's sort is "ascending,
stable"; on integers equal elements are indistinguishable, so the output
is determined by the input multiset and any correct ascending sort is an
exact embedding. -/
def pySortedInts (l : List Int) : List Int :=
  l.insertionSort (fun a b => a ≤ b)

/-- Elementwise traversal of a list under a fallible function, stopping at
the first failure: the behaviour of a Python comprehension whose body may
raise. -/
def optionMapList (f : α → Option β) : List α → Option (List β)
  | [] => Option.some []
  | x :: t =>
    match f x, optionMapList f t with
    | Option.some y, Option.some ys => Option.some (y :: ys)
    | _, _ => Option.none

/-- As `optionMapList`, for bodies raising embedded exceptions. -/
def exceptMapList (f : α → Except PyErr β) : List α → Except PyErr (List β)
  | [] => .ok []
  | x :: t =>
    match f x with
    | .error e => .error e
    | .ok y =>
      match exceptMapList f t with
      | .error e => .error e
      | .ok ys => .ok (y :: ys)

/-- Python `d[k]` on the embedded dict: the first (and, for a real dict,
only) binding of `k`; `Option.none` models the `KeyError`. -/
def dictGet (entries : List (String × PyVal)) (k : String) : Option PyVal :=
  (entries.find? (fun p => p.1 == k)).map Prod.snd

/-- `ListType._force_list` (lines 152-165).  A string raises `TypeError`
inside the `try`, caught to give `[value]`; a dict is read back in
numerically sorted key order (`int` on a non-numeric key raises
`ValueError` and a non-canonical key raises `KeyError`, neither caught by
the `except TypeError` clause); other non-iterables make `list(value)`
raise `TypeError`, caught to give `[value]`. -/
def forceList (value : PyVal) : Except PyErr (List PyVal) :=
  match value with
  | .none => .ok []
  | .emptyListMarker => .ok []
  | .str s => .ok [.str s]
  | .dict entries =>
      match optionMapList pyInt (entries.map Prod.fst) with
      | Option.none => .error .valueError
      | Option.some ks =>
          match optionMapList (fun k => dictGet entries (intToStr k))
              (pySortedInts ks) with
          | Option.none => .error .keyError
          | Option.some vs => .ok vs
  | .list xs => .ok xs
  | v => .ok [v]

/-- `ListType.to_native` (lines 167-174).  The inner field's `to_native`
(with `env` already bound by the `functools.partial` of line 170 when the
inner field is compound, and the `context` argument applied) is abstracted
as `fieldToNative`. -/
def listTypeToNative (fieldToNative : PyVal → Except PyErr PyVal)
    (value : PyVal) : Except PyErr (List PyVal) :=
  match forceList value with
  | .error e => .error e
  | .ok items => exceptMapList fieldToNative items

/-- The message raised when the minimum size is violated (lines 180-183). -/
def minSizeMessage (m : Int) : String :=
  if m == 1 then "Please provide at least " ++ toString m ++ " item."
  else "Please provide at least " ++ toString m ++ " items."

/-- The message raised when the maximum size is violated (lines 187-190). -/
def maxSizeMessage (m : Int) : String :=
  if m == 1 then "Please provide no more than " ++ toString m ++ " item."
  else "Please provide no more than " ++ toString m ++ " items."

/-- `ListType.check_length` (lines 176-191): `Option.some msg` means
`ValidationError(msg)` is raised.  `list_length = len(value) if value
else 0` coincides with the length for the list values this validator
receives. -/
def checkLength (minSize maxSize : Option Int) (value : List PyVal) :
    Option String :=
  let listLength : Int := if value.isEmpty then 0 else (value.length : Int)
  let minViolation : Option String :=
    match minSize with
    | Option.some m =>
        if listLength < m then Option.some (minSizeMessage m) else Option.none
    | Option.none => Option.none
  match minViolation with
  | Option.some msg => Option.some msg
  | Option.none =>
      match maxSize with
      | Option.some m =>
          if listLength > m then Option.some (maxSizeMessage m) else Option.none
      | Option.none => Option.none

/-! ### The shared export loops of `ListType` and `DictType`
(lines 211-242 and 297-327) -/

/-- The inner `self.field` of a `ListType` / `DictType` as its parent's
export loop observes it: whether `hasattr(self.field, 'export_loop')`
holds, its `export_loop` — closing over `field_converter`, `role` and
`serialize_when_undefined`, which lines 220-222 / 307-309 pass through
(`print_none` is not forwarded) — returning `.none` for omission, and its
`allow_none()`. -/
structure InnerField where
  hasExportLoop : Bool
  exportLoop : PyVal → PyVal
  allowNone : Bool

/-- Lines 219-226 / 306-313: shape one child value and classify it,
returning `(shaped, feels_empty)`.  For a compound inner field
`feels_empty = shaped and len(shaped) == 0` (a truthiness test); for a
leaf `feels_empty = shaped is None`. -/
def shapeChild (field : InnerField) (fieldConverter : PyVal → PyVal)
    (v : PyVal) : PyVal × Bool :=
  if field.hasExportLoop then
    let shaped := field.exportLoop v
    (shaped, pyTruthy shaped && pyLen shaped == 0)
  else
    let shaped := fieldConverter v
    (shaped, shaped.isNone)

/-- The `data` list built by the loop of `ListType.export_loop`
(lines 217-234): append `shaped` when `feels_empty and
self.field.allow_none()`, or `shaped is not None`, or `print_none`. -/
def listExportData (field : InnerField) (fieldConverter : PyVal → PyVal)
    (printNone : Bool) (xs : List PyVal) : List PyVal :=
  xs.foldl (fun data v =>
    let sc := shapeChild field fieldConverter v
    if sc.2 && field.allowNone then data ++ [sc.1]
    else if !sc.1.isNone then data ++ [sc.1]
    else if printNone then data ++ [sc.1]
    else data) []

/-- `ListType.export_loop` (lines 211-242); `.none` is the implicit-`None`
omission signal of the final fall-through. -/
def listExportLoop (field : InnerField) (fieldConverter : PyVal → PyVal)
    (selfAllowNone printNone : Bool) (xs : List PyVal) : PyVal :=
  let data := listExportData field fieldConverter printNone xs
  if data.length > 0 then .list data
  else if data.length == 0 && selfAllowNone then .list data
  else if printNone then .list data
  else .none

/-- The `data` dict built by the loop of `DictType.export_loop`
(lines 303-320), keyed by the original keys in iteration order. -/
def dictExportData (field : InnerField) (fieldConverter : PyVal → PyVal)
    (printNone : Bool) (entries : List (String × PyVal)) :
    List (String × PyVal) :=
  entries.foldl (fun data kv =>
    let sc := shapeChild field fieldConverter kv.2
    if sc.2 && field.allowNone then data ++ [(kv.1, sc.1)]
    else if !sc.1.isNone then data ++ [(kv.1, sc.1)]
    else if printNone then data ++ [(kv.1, sc.1)]
    else data) []

/-- `DictType.export_loop` (lines 297-327). -/
def dictExportLoop (field : InnerField) (fieldConverter : PyVal → PyVal)
    (selfAllowNone printNone : Bool) (entries : List (String × PyVal)) :
    PyVal :=
  let data := dictExportData field fieldConverter printNone entries
  if data.length > 0 then .dict data
  else if data.length == 0 && selfAllowNone then .dict data
  else if printNone then .dict data
  else .none

/-! ### `DictType` coercion and validation (lines 245-291) -/

/-- `DictType.to_native` (lines 263-276).  The inner field's `to_native`
is abstracted as `fieldToNative` and the key coercion (default `unicode`)
as `coerceKey`, as in `listTypeToNative`. -/
def dictTypeToNative (coerceKey : String → String)
    (fieldToNative : PyVal → Except PyErr PyVal) (value : PyVal) :
    Except PyErr (List (String × PyVal)) :=
  let value := match value with
    | .emptyDictMarker => PyVal.dict []
    | v => v
  let value := if pyTruthy value then value else PyVal.dict []
  match value with
  | .dict entries =>
      exceptMapList
        (fun kv => (fieldToNative kv.2).map (fun nv => (coerceKey kv.1, nv)))
        entries
  | _ => .error (.validation (.msg "Only dictionaries may be used in a DictType"))

/-- The `errors` dict built by `DictType.validate_items` (lines 283-288):
for each entry whose value fails the inner field's validation,
`errors[key] = exc` stores the caught `ValidationError` object itself.
The inner validation is abstracted as `innerValidate`, returning the
payload of the `ValidationError` it raises, if any. -/
def dictValidateItemsErrors (innerValidate : PyVal → Option ErrVal)
    (items : List (String × PyVal)) : Messages :=
  items.foldl (fun errors kv =>
    match innerValidate kv.2 with
    | Option.none => errors
    | Option.some e => dictSet errors kv.1 (ErrVal.exc e)) []

/-- `DictType.validate_items` (lines 278-291) as a validator outcome.
Modelled from the spec: the exception hierarchy of `exceptions.py` is not
under `src/`; per spec §7, `StopValidation` is a variant of
`ModelValidationError`, while a plain `ValidationError` is a separate
taxon, so the `ValidationError(errors)` raised here is not caught by the
`except ModelValidationError` clause of `MultiType.validate` and
propagates (`.uncaught`).  `iteritems` on a non-mapping raises
`AttributeError`. -/
def dictValidateItems (innerValidate : PyVal → Option ErrVal) : Validator :=
  fun value _env =>
    match value with
    | .dict items =>
        let errors := dictValidateItemsErrors innerValidate items
        if errors.isEmpty then .ok
        else .uncaught (.validation (.map errors))
    | _ => .uncaught .attributeError

/-- `validate` of a `DictType` constructed with no extra validators:
`MultiType.validate` with `validators = [self.validate_items]`
(line 255). -/
def dictTypeValidate (innerValidate : PyVal → Option ErrVal)
    (value env : PyVal) : Except PyErr PyVal :=
  multiTypeValidate [dictValidateItems innerValidate] value env

/-- Reference definition following the spec's words for claim C5 ("a
sequence built by sorting keys numerically and reading values in that
order"): the parsed entries in ascending key order. -/
def sortEntriesByKey (parsed : List (Int × PyVal)) : List (Int × PyVal) :=
  parsed.insertionSort (fun a b => a.1 ≤ b.1)

/-- A concrete model-class fixture for evaluating the `ModelType` theorems
at explicit inputs: instances are the objects tagged `"M"`, and the import
routine returns a recognisable fresh object. -/
def sampleModelClass : ModelClass :=
  ⟨"M",
   fun v => match v with | .obj t => t == "M" | _ => false,
   fun _ _ _ _ _ => PyVal.obj "imported"⟩

/-! ## Theorems -/

/-- Claim C7, counterexample: the claim asserts that every two constructed
sentinel instances compare equal, subclass variants included; but for an
instance of one subclass variant against an instance of a different
subclass variant, Python's `==` yields `False` — neither type is a
subclass of the other, so the left operand's `__eq__` answers, both its
disjuncts fail, and the returned `False` (not `NotImplemented`) is
final. -/
theorem sentinel_eq_cross_subclass_counterexample :
    pyEqSentinels (UClass.sub "VariantA") (UClass.sub "VariantB") = false :=
  rfl

/-- Claim C7, amended: between sentinel instances, `a == b` holds exactly
when the two instances are of the same concrete variant or either one is
the base sentinel — so every subclass instance equals itself and the base
sentinel, in both operand orders, while instances of two distinct
subclass variants are unequal; and `has_value(Undefined)` is false,
`has_value(None)` is false, `has_value(0)` is true. -/
theorem sentinel_eq_characterisation_and_has_value :
    (∀ a b : UClass, pyEqSentinels a b = true ↔
        (a = b ∨ a = UClass.base ∨ b = UClass.base))
      ∧ has_value (UVal.undef UClass.base) = false
      ∧ has_value UVal.none = false
      ∧ has_value (UVal.int 0) = true := by
  refine ⟨?_, rfl, rfl, rfl⟩
  intro a b
  by_cases ha : a = UClass.base
  · subst ha
    by_cases hb : b = UClass.base
    · subst hb
      simp [pyEqSentinels, undefEq]
    · simp [pyEqSentinels, undefEq, hb]
  · simp [pyEqSentinels, undefEq, ha]

/-- Claim C1, evaluated at the failing input: when the recursive shaping
of the model instance produces an empty mapping, the field's
`allow_none()` is true and `print_none` is false, `ModelType.export_loop`
returns the omission signal (`None`) instead of the empty mapping the
claim describes.  The guard `shaped and len(shaped) == 0 and
self.allow_none()` of line 124 can never hold — a truthy mapping has
nonzero length — so the branch meant to return the empty mapping is
dead, while the parallel container boundary of `ListType.export_loop`
(lines 237-242) implements the live version of the same rule. -/
theorem modelTypeExportLoop_empty_allowNone_failing_input :
    modelTypeExportLoop (fun _ => PyVal.dict []) true false (PyVal.obj "instance")
      = PyVal.none :=
  rfl

/-- Claim C9: for every string `s`, `ListType.to_native` treats `s` as a
single scalar — the result is the inner field's coercion of `s` wrapped
in a one-element list, whatever the string's length, so the string is
never consumed character by character.  Relies on the spec-modelled
`EMPTY_LIST` marker being a sentinel object distinct from every string. -/
theorem listTypeToNative_string_scalar :
    ∀ (f : PyVal → Except PyErr PyVal) (s : String),
      listTypeToNative f (PyVal.str s) = (f (PyVal.str s)).map (fun v => [v]) := by
  intro f s
  simp only [listTypeToNative, forceList]
  cases hf : f (PyVal.str s) <;> simp [exceptMapList, hf, Except.map]

/-- Claim C4: `ModelType.to_native` returns `None` when the value is
`None`; returns the value itself unchanged when it is already an instance
of the target model class; raises a `ConversionError` naming the expected
schema and the actual input type when the value is not a mapping; and
otherwise returns the result of the freshly constructed instance's import
routine, with mapping (after the `mapping or {}` defaulting), context,
the field's strict flag and env passed through. -/
theorem modelTypeToNative_spec :
    (∀ (mc : ModelClass) (strict : Bool)
        (mapping : Option (List (String × PyVal))) (context env : PyVal),
        modelTypeToNative mc strict PyVal.none mapping context env
          = .ok PyVal.none)
    ∧ (∀ (mc : ModelClass) (strict : Bool) (v : PyVal)
        (mapping : Option (List (String × PyVal))) (context env : PyVal),
        mc.isInstance v = true →
        modelTypeToNative mc strict v mapping context env = .ok v)
    ∧ (∀ (mc : ModelClass) (strict : Bool) (v : PyVal)
        (mapping : Option (List (String × PyVal))) (context env : PyVal),
        v.isNone = false → mc.isInstance v = false →
        (∀ es, v ≠ PyVal.dict es) →
        modelTypeToNative mc strict v mapping context env =
          .error (.conversion ("Please use a mapping for this field or " ++
            mc.name ++ " instance instead of " ++ pyTypeName v ++ ".")))
    ∧ (∀ (mc : ModelClass) (strict : Bool) (es : List (String × PyVal))
        (mapping : Option (List (String × PyVal))) (context env : PyVal),
        mc.isInstance (PyVal.dict es) = false →
        modelTypeToNative mc strict (PyVal.dict es) mapping context env =
          .ok (mc.importData (PyVal.dict es) (mapping.getD []) context strict env)) := by
  refine ⟨?_, ?_, ?_, ?_⟩
  · intro mc strict mapping context env
    rfl
  · intro mc strict v mapping context env h
    cases v <;> simp [modelTypeToNative, PyVal.isNone, h]
  · intro mc strict v mapping context env h1 h2 h3
    cases v with
    | none => simp [PyVal.isNone] at h1
    | dict es => exact absurd rfl (h3 es)
    | _ => simp [modelTypeToNative, PyVal.isNone, h2, pyTypeName]
  · intro mc strict es mapping context env h
    simp [modelTypeToNative, PyVal.isNone, h]

/-- Claim C4, witness: the four branches evaluated at explicit inputs
through `sampleModelClass`. -/
theorem modelTypeToNative_spec_witness :
    modelTypeToNative sampleModelClass true PyVal.none Option.none
        PyVal.none PyVal.none = .ok PyVal.none
    ∧ modelTypeToNative sampleModelClass true (PyVal.obj "M") Option.none
        PyVal.none PyVal.none = .ok (PyVal.obj "M")
    ∧ modelTypeToNative sampleModelClass true (PyVal.int 3) Option.none
        PyVal.none PyVal.none =
          .error (.conversion
            "Please use a mapping for this field or M instance instead of int.")
    ∧ modelTypeToNative sampleModelClass true (PyVal.dict []) Option.none
        PyVal.none PyVal.none = .ok (PyVal.obj "imported") := by
  refine ⟨?_, ?_, ?_, ?_⟩
  · exact modelTypeToNative_spec.1 sampleModelClass true Option.none
      PyVal.none PyVal.none
  · exact modelTypeToNative_spec.2.1 sampleModelClass true (PyVal.obj "M")
      Option.none PyVal.none PyVal.none rfl
  · exact (modelTypeToNative_spec.2.2.1 sampleModelClass true (PyVal.int 3)
      Option.none PyVal.none PyVal.none rfl rfl
      (fun es h => by cases h)).trans rfl
  · exact modelTypeToNative_spec.2.2.2 sampleModelClass true []
      Option.none PyVal.none PyVal.none rfl

/-- Claim C10: `DictType.to_native` returns an empty mapping for `None`,
for the spec-modelled `EMPTY_DICT` marker, and for every falsy input; and
for every truthy input that is not a mapping it raises a
`ValidationError` (a validation-category error, not a conversion error),
independently of the key and value coercion functions, so no coercion is
attempted. -/
theorem dictTypeToNative_spec :
    (∀ (ck : String → String) (f : PyVal → Except PyErr PyVal) (v : PyVal),
        (pyTruthy v = false ∨ v = PyVal.emptyDictMarker) →
        dictTypeToNative ck f v = .ok [])
    ∧ (∀ (ck : String → String) (f : PyVal → Except PyErr PyVal) (v : PyVal),
        pyTruthy v = true → (∀ es, v ≠ PyVal.dict es) →
        v ≠ PyVal.emptyDictMarker →
        dictTypeToNative ck f v =
          .error (.validation
            (.msg "Only dictionaries may be used in a DictType"))) := by
  constructor
  · intro ck f v h
    rcases h with h | h
    · cases v <;> simp_all [dictTypeToNative, pyTruthy, exceptMapList]
    · subst h
      rfl
  · intro ck f v ht hnd hnm
    cases v with
    | dict es => exact absurd rfl (hnd es)
    | emptyDictMarker => exact absurd rfl hnm
    | _ => simp_all [dictTypeToNative, pyTruthy]

/-- Claim C10, witness: the falsy branch at `0` and the truthy non-mapping
branch at `5`, with identity coercions. -/
theorem dictTypeToNative_spec_witness :
    dictTypeToNative (fun k => k) (fun v => .ok v) (PyVal.int 0) = .ok []
    ∧ dictTypeToNative (fun k => k) (fun v => .ok v) (PyVal.int 5) =
        .error (.validation
          (.msg "Only dictionaries may be used in a DictType")) := by
  constructor
  · exact dictTypeToNative_spec.1 (fun k => k) (fun v => .ok v) (PyVal.int 0)
      (Or.inl rfl)
  · exact dictTypeToNative_spec.2 (fun k => k) (fun v => .ok v) (PyVal.int 5)
      rfl (fun es h => by cases h) (by intro h; cases h)

/-- The `list_length = len(value) if value else 0` of line 177 is simply
the length for list values. -/
theorem checkLength_listLength (xs : List PyVal) :
    (if xs.isEmpty then (0 : Int) else (xs.length : Int)) = (xs.length : Int) := by
  cases xs <;> simp

/-- Claim C6: `check_length` fails exactly when the element count is below
`min_size` or above `max_size`; a violated minimum reports the
minimum-size message and a violated maximum (with the minimum satisfied)
the maximum-size message; and each message uses the singular wording
(`"item"`) precisely when the violated bound equals `1`, the plural
wording (`"items"`) for every other bound value. -/
theorem checkLength_spec :
    (∀ (minSize maxSize : Option Int) (xs : List PyVal),
        (checkLength minSize maxSize xs).isSome = true ↔
          ((∃ m, minSize = Option.some m ∧ (xs.length : Int) < m) ∨
           (∃ m, maxSize = Option.some m ∧ (xs.length : Int) > m)))
    ∧ (∀ (m : Int) (maxSize : Option Int) (xs : List PyVal),
        (xs.length : Int) < m →
        checkLength (Option.some m) maxSize xs = Option.some (minSizeMessage m))
    ∧ (∀ (m : Int) (xs : List PyVal),
        ¬ (xs.length : Int) > m →
        checkLength Option.none (Option.some m) xs = Option.none)
    ∧ (∀ (m : Int) (xs : List PyVal),
        (xs.length : Int) > m →
        checkLength Option.none (Option.some m) xs = Option.some (maxSizeMessage m))
    ∧ (∀ m : Int,
        ((minSizeMessage m =
            "Please provide at least " ++ toString m ++ " item.") ↔ m = 1)
        ∧ ((maxSizeMessage m =
            "Please provide no more than " ++ toString m ++ " item.") ↔ m = 1)) := by
  refine ⟨?_, ?_, ?_, ?_, ?_⟩
  · intro minSize maxSize xs
    cases minSize with
    | none =>
      cases maxSize with
      | none => simp [checkLength]
      | some M =>
        by_cases h : (xs.length : Int) > M <;>
          simp [checkLength, checkLength_listLength, h]
    | some m =>
      by_cases hmin : (xs.length : Int) < m
      · simp [checkLength, checkLength_listLength, hmin]
      · cases maxSize with
        | none => simp [checkLength, checkLength_listLength, hmin]
        | some M =>
          by_cases h : (xs.length : Int) > M <;>
            simp [checkLength, checkLength_listLength, hmin, h]
  · intro m maxSize xs h
    simp [checkLength, checkLength_listLength, h]
  · intro m xs h
    simp [checkLength, checkLength_listLength, h]
  · intro m xs h
    simp [checkLength, checkLength_listLength, h]
  · intro m
    constructor
    · constructor
      · intro h
        by_contra hm
        rw [minSizeMessage, if_neg (by simpa using hm)] at h
        have hlen := congrArg String.length h
        simp [String.length_append] at hlen
        exact absurd hlen (by decide)
      · intro h
        subst h
        rfl
    · constructor
      · intro h
        by_contra hm
        rw [maxSizeMessage, if_neg (by simpa using hm)] at h
        have hlen := congrArg String.length h
        simp [String.length_append] at hlen
        exact absurd hlen (by decide)
      · intro h
        subst h
        rfl

/-- Claim C6, witness: `min_size=1` on an empty list fails with the
singular wording, a one-element list passes; `max_size=0` fails with the
plural wording on a one-element list; the messages evaluated. -/
theorem checkLength_spec_witness :
    checkLength (Option.some 1) Option.none [] =
        Option.some "Please provide at least 1 item."
    ∧ checkLength (Option.some 1) Option.none [PyVal.int 7] = Option.none
    ∧ checkLength Option.none (Option.some 0) [PyVal.int 7] =
        Option.some "Please provide no more than 0 items."
    ∧ checkLength (Option.some 2) Option.none [PyVal.int 7] =
        Option.some "Please provide at least 2 items." := by
  refine ⟨?_, ?_, ?_, ?_⟩
  · exact (checkLength_spec.2.1 1 Option.none [] (by decide)).trans rfl
  · exact checkLength_spec.2.2.1 1 [PyVal.int 7] (by decide)
  · exact (checkLength_spec.2.2.2.1 0 [PyVal.int 7] (by decide)).trans rfl
  · exact (checkLength_spec.2.1 2 Option.none [PyVal.int 7] (by decide)).trans rfl

/-- Claim C2: in the loops of `ListType.export_loop` and
`DictType.export_loop`, a shaped child value is included in the output
container exactly when `(feels_empty and self.field.allow_none())`, or
the shaped value is not `None`, or `print_none` holds — the built `data`
container is the filter of the shaped children under that disjunction,
keyed by the original keys in the dict case.  In particular, with
`print_none` false, an empty-container shaped child under an inner field
with `allow_none() == True` is included as an empty container, and an
absent (`None`) shaped child under an inner field with `allow_none() ==
False` is dropped. -/
theorem exportLoop_child_inclusion :
    (∀ (field : InnerField) (fc : PyVal → PyVal) (printNone : Bool)
        (xs : List PyVal),
        listExportData field fc printNone xs =
          (xs.map (shapeChild field fc)).filterMap
            (fun sc =>
              if (sc.2 && field.allowNone) || !sc.1.isNone || printNone
              then Option.some sc.1 else Option.none))
    ∧ (∀ (field : InnerField) (fc : PyVal → PyVal) (printNone : Bool)
        (entries : List (String × PyVal)),
        dictExportData field fc printNone entries =
          (entries.map (fun kv => (kv.1, shapeChild field fc kv.2))).filterMap
            (fun ksc =>
              if (ksc.2.2 && field.allowNone) || !ksc.2.1.isNone || printNone
              then Option.some (ksc.1, ksc.2.1) else Option.none))
    ∧ listExportData ⟨true, fun _ => PyVal.list [], true⟩ (fun v => v) false
        [PyVal.obj "child"] = [PyVal.list []]
    ∧ listExportData ⟨true, fun _ => PyVal.none, false⟩ (fun v => v) false
        [PyVal.obj "child"] = []
    ∧ dictExportData ⟨true, fun _ => PyVal.dict [], true⟩ (fun v => v) false
        [("k", PyVal.obj "child")] = [("k", PyVal.dict [])]
    ∧ dictExportData ⟨true, fun _ => PyVal.none, false⟩ (fun v => v) false
        [("k", PyVal.obj "child")] = [] := by
  refine ⟨?_, ?_, rfl, rfl, rfl, rfl⟩
  · intro field fc printNone xs
    have go : ∀ (ys : List PyVal) (acc : List PyVal),
        (ys.foldl (fun data v =>
          let sc := shapeChild field fc v
          if sc.2 && field.allowNone then data ++ [sc.1]
          else if !sc.1.isNone then data ++ [sc.1]
          else if printNone then data ++ [sc.1]
          else data) acc)
          = acc ++ (ys.map (shapeChild field fc)).filterMap
              (fun sc =>
                if (sc.2 && field.allowNone) || !sc.1.isNone || printNone
                then Option.some sc.1 else Option.none) := by
      intro ys
      induction ys with
      | nil => intro acc; simp
      | cons v t ih =>
        intro acc
        have hstep :
            (let sc := shapeChild field fc v
             if sc.2 && field.allowNone then acc ++ [sc.1]
             else if !sc.1.isNone then acc ++ [sc.1]
             else if printNone then acc ++ [sc.1]
             else acc)
            = acc ++
                (if ((shapeChild field fc v).2 && field.allowNone)
                    || !(shapeChild field fc v).1.isNone || printNone
                 then [(shapeChild field fc v).1] else []) := by
          by_cases h1 : ((shapeChild field fc v).2 && field.allowNone) = true
          · simp [h1]
          · by_cases h2 : (!(shapeChild field fc v).1.isNone) = true
            · simp [h1, h2]
            · by_cases h3 : printNone = true
              · simp [h1, h2, h3]
              · simp [h1, h2, h3]
        rw [List.foldl_cons, hstep, ih, List.map_cons, List.filterMap_cons]
        by_cases hc : (((shapeChild field fc v).2 && field.allowNone)
            || !(shapeChild field fc v).1.isNone || printNone) = true
        · simp [hc]
        · simp [hc]
    simpa [listExportData] using go xs []
  · intro field fc printNone entries
    have go : ∀ (ys : List (String × PyVal)) (acc : List (String × PyVal)),
        (ys.foldl (fun data kv =>
          let sc := shapeChild field fc kv.2
          if sc.2 && field.allowNone then data ++ [(kv.1, sc.1)]
          else if !sc.1.isNone then data ++ [(kv.1, sc.1)]
          else if printNone then data ++ [(kv.1, sc.1)]
          else data) acc)
          = acc ++ (ys.map (fun kv => (kv.1, shapeChild field fc kv.2))).filterMap
              (fun ksc =>
                if (ksc.2.2 && field.allowNone) || !ksc.2.1.isNone || printNone
                then Option.some (ksc.1, ksc.2.1) else Option.none) := by
      intro ys
      induction ys with
      | nil => intro acc; simp
      | cons kv t ih =>
        intro acc
        have hstep :
            (let sc := shapeChild field fc kv.2
             if sc.2 && field.allowNone then acc ++ [(kv.1, sc.1)]
             else if !sc.1.isNone then acc ++ [(kv.1, sc.1)]
             else if printNone then acc ++ [(kv.1, sc.1)]
             else acc)
            = acc ++
                (if ((shapeChild field fc kv.2).2 && field.allowNone)
                    || !(shapeChild field fc kv.2).1.isNone || printNone
                 then [(kv.1, (shapeChild field fc kv.2).1)] else []) := by
          by_cases h1 : ((shapeChild field fc kv.2).2 && field.allowNone) = true
          · simp [h1]
          · by_cases h2 : (!(shapeChild field fc kv.2).1.isNone) = true
            · simp [h1, h2]
            · by_cases h3 : printNone = true
              · simp [h1, h2, h3]
              · simp [h1, h2, h3]
        rw [List.foldl_cons, hstep, ih, List.map_cons, List.filterMap_cons]
        by_cases hc : (((shapeChild field fc kv.2).2 && field.allowNone)
            || !(shapeChild field fc kv.2).1.isNone || printNone) = true
        · simp [hc]
        · simp [hc]
    simpa [dictExportData] using go entries []

/-- Setting a key absent from an insertion-ordered dict appends it. -/
theorem dictSet_append_of_not_mem (d : Messages) (k : String) (v : ErrVal)
    (h : ∀ p ∈ d, p.1 ≠ k) : dictSet d k v = d ++ [(k, v)] := by
  have hany : ¬ (d.any (fun p => p.1 == k) = true) := by
    simp only [List.any_eq_true, beq_iff_eq, not_exists]
    rintro p ⟨hp, he⟩
    exact h p hp he
  unfold dictSet
  rw [if_neg hany]

/-- Updating with a dict of fresh, pairwise distinct keys appends it. -/
theorem dictUpdate_of_disjoint :
    ∀ (u d : Messages), (u.map Prod.fst).Nodup →
      (∀ k ∈ u.map Prod.fst, k ∉ d.map Prod.fst) →
      dictUpdate d u = d ++ u := by
  intro u
  induction u with
  | nil => intro d _ _; simp [dictUpdate]
  | cons p t ih =>
    intro d hnd hdisj
    have hfresh : ∀ q ∈ d, q.1 ≠ p.1 := by
      intro q hq he
      exact hdisj p.1 (by simp) (he ▸ List.mem_map_of_mem Prod.fst hq)
    have hset : dictSet d p.1 p.2 = d ++ [(p.1, p.2)] :=
      dictSet_append_of_not_mem d p.1 p.2 hfresh
    have hstep : dictUpdate d (p :: t) = dictUpdate (dictSet d p.1 p.2) t := rfl
    rw [hstep, hset, ih (d ++ [(p.1, p.2)])]
    · simp
    · exact (List.nodup_cons.mp (by simpa using hnd)).2
    · intro k hk
      simp only [List.map_append, List.mem_append]
      rintro (hk1 | hk2)
      · exact hdisj k (by simp [hk]) hk1
      · have : k = p.1 := by simpa using hk2
        exact (List.nodup_cons.mp (by simpa using hnd)).1 (this ▸ hk)

/-- Validators after a stop validator are never consulted. -/
theorem runValidators_stop_cut (value env : PyVal) (m : Messages)
    (vs2 : List Validator) :
    ∀ (vs1 : List Validator) (errors : Messages),
      runValidators value env errors
          (vs1 ++ (fun _ _ => ValidatorOutcome.stopErr m) :: vs2)
        = runValidators value env errors
            (vs1 ++ [fun _ _ => ValidatorOutcome.stopErr m]) := by
  intro vs1
  induction vs1 with
  | nil => intro errors; rfl
  | cons v t ih =>
    intro errors
    simp only [List.cons_append, runValidators]
    cases v value env with
    | ok => exact ih errors
    | modelErr msgs => exact ih (dictUpdate errors msgs)
    | stopErr msgs => rfl
    | uncaught e => rfl

/-- A run of validators that all pass leaves the accumulator untouched. -/
theorem runValidators_all_ok (value env : PyVal) :
    ∀ (vs : List Validator) (errors : Messages),
      (∀ v ∈ vs, v value env = ValidatorOutcome.ok) →
      runValidators value env errors vs = .ok errors := by
  intro vs
  induction vs with
  | nil => intro errors _; rfl
  | cons v t ih =>
    intro errors h
    simp only [runValidators, h v (by simp)]
    exact ih errors (fun w hw => h w (List.mem_cons_of_mem _ hw))

/-- Claim C3: `MultiType.validate` runs its validators in declared order
into one merged accumulator; iteration stops immediately after merging a
`StopValidation` failure, so later validators are never consulted; given
the loop's final accumulator it raises a single aggregate
`ValidationError` exactly when the accumulator is non-empty and otherwise
returns the original value unchanged; and in particular with validators
`[v1 (fails, StopValidation), v2]` the aggregate holds exactly `v1`'s
messages whatever `v2` does. -/
theorem multiTypeValidate_spec :
    (∀ (vs1 vs2 : List Validator) (m : Messages) (value env : PyVal),
        multiTypeValidate
            (vs1 ++ (fun _ _ => ValidatorOutcome.stopErr m) :: vs2) value env
          = multiTypeValidate
              (vs1 ++ [fun _ _ => ValidatorOutcome.stopErr m]) value env)
    ∧ (∀ (vs : List Validator) (value env : PyVal) (errors : Messages),
        runValidators value env [] vs = .ok errors →
        multiTypeValidate vs value env =
          if errors.isEmpty then .ok value
          else .error (.validation (.map errors)))
    ∧ (∀ (vs : List Validator) (value env : PyVal),
        (∀ v ∈ vs, v value env = ValidatorOutcome.ok) →
        multiTypeValidate vs value env = .ok value)
    ∧ (∀ (m : Messages) (v2 : Validator) (value env : PyVal),
        m.isEmpty = false → (m.map Prod.fst).Nodup →
        multiTypeValidate [fun _ _ => ValidatorOutcome.stopErr m, v2] value env
          = .error (.validation (.map m))) := by
  refine ⟨?_, ?_, ?_, ?_⟩
  · intro vs1 vs2 m value env
    simp only [multiTypeValidate, runValidators_stop_cut value env m vs2 vs1]
  · intro vs value env errors h
    simp [multiTypeValidate, h]
  · intro vs value env h
    simp [multiTypeValidate, runValidators_all_ok value env vs [] h]
  · intro m v2 value env hne hnd
    have hupd : dictUpdate [] m = m := by
      simpa using dictUpdate_of_disjoint m [] hnd (by simp)
    simp [multiTypeValidate, runValidators, hupd, hne]

/-- Claim C3, witness: a stopping first validator hides the second
validator's ordinary failure, and an empty validator list returns the
value unchanged. -/
theorem multiTypeValidate_spec_witness :
    multiTypeValidate
        [fun _ _ => ValidatorOutcome.stopErr [("a", ErrVal.msg "x")],
         fun _ _ => ValidatorOutcome.modelErr [("b", ErrVal.msg "y")]]
        (PyVal.int 1) PyVal.none
      = .error (.validation (.map [("a", ErrVal.msg "x")]))
    ∧ multiTypeValidate [] (PyVal.int 1) PyVal.none = .ok (PyVal.int 1) := by
  constructor
  · exact multiTypeValidate_spec.2.2.2 [("a", ErrVal.msg "x")]
      (fun _ _ => ValidatorOutcome.modelErr [("b", ErrVal.msg "y")])
      (PyVal.int 1) PyVal.none rfl (by simp)
  · exact multiTypeValidate_spec.2.2.1 [] (PyVal.int 1) PyVal.none (by simp)

/-- The `errors` dict of `DictType.validate_items` is the per-key filter
of the failing entries, in input order, when the keys are pairwise
distinct (as they are for a real Python dict). -/
theorem dictValidateItemsErrors_filterMap
    (innerValidate : PyVal → Option ErrVal) :
    ∀ (items : List (String × PyVal)) (acc : Messages),
      (items.map Prod.fst).Nodup →
      (∀ k ∈ items.map Prod.fst, k ∉ acc.map Prod.fst) →
      (items.foldl (fun errors kv =>
        match innerValidate kv.2 with
        | Option.none => errors
        | Option.some e => dictSet errors kv.1 (ErrVal.exc e)) acc)
      = acc ++ items.filterMap
          (fun kv => (innerValidate kv.2).map (fun e => (kv.1, ErrVal.exc e))) := by
  intro items
  induction items with
  | nil => intro acc _ _; simp
  | cons kv t ih =>
    intro acc hnd hdisj
    have hndt : (t.map Prod.fst).Nodup :=
      (List.nodup_cons.mp (by simpa using hnd)).2
    have hhead : kv.1 ∉ t.map Prod.fst :=
      (List.nodup_cons.mp (by simpa using hnd)).1
    rw [List.foldl_cons, List.filterMap_cons]
    cases hv : innerValidate kv.2 with
    | none =>
      simp only [hv, Option.map_none]
      exact ih acc hndt (fun k hk => hdisj k (List.mem_cons_of_mem _ hk))
    | some e =>
      have hfresh : ∀ q ∈ acc, q.1 ≠ kv.1 := by
        intro q hq he
        exact hdisj kv.1 (by simp) (he ▸ List.mem_map_of_mem Prod.fst hq)
      have hset : dictSet acc kv.1 (ErrVal.exc e)
          = acc ++ [(kv.1, ErrVal.exc e)] :=
        dictSet_append_of_not_mem acc kv.1 (ErrVal.exc e) hfresh
      simp only [hv, Option.map_some]
      rw [hset, ih (acc ++ [(kv.1, ErrVal.exc e)]) hndt]
      · simp
      · intro k hk
        simp only [List.map_append, List.mem_append]
        rintro (hk1 | hk2)
        · exact hdisj k (List.mem_cons_of_mem _ hk) hk1
        · have : k = kv.1 := by simpa using hk2
          exact hhead (this ▸ hk)

/-- Claim C8: when a `DictType`'s values independently fail the inner
field's validation, `DictType` validation fails with one aggregate
`ValidationError` whose structured map has exactly one entry per failing
key — keyed by the original mapping key, with passing keys absent — each
entry being the very error raised for that key's value; and when no value
fails, the original value is returned unchanged. -/
theorem dictTypeValidate_spec :
    ∀ (innerValidate : PyVal → Option ErrVal)
      (entries : List (String × PyVal)) (env : PyVal),
      (entries.map Prod.fst).Nodup →
      dictTypeValidate innerValidate (PyVal.dict entries) env =
        (if (entries.filterMap (fun kv =>
              (innerValidate kv.2).map (fun e => (kv.1, ErrVal.exc e)))).isEmpty
         then .ok (PyVal.dict entries)
         else .error (.validation (.map (entries.filterMap (fun kv =>
              (innerValidate kv.2).map (fun e => (kv.1, ErrVal.exc e))))))) := by
  intro innerValidate entries env hnd
  have herr : dictValidateItemsErrors innerValidate entries =
      entries.filterMap
        (fun kv => (innerValidate kv.2).map (fun e => (kv.1, ErrVal.exc e))) := by
    simpa [dictValidateItemsErrors] using
      dictValidateItemsErrors_filterMap innerValidate entries [] hnd (by simp)
  by_cases hemp : (entries.filterMap (fun kv =>
      (innerValidate kv.2).map (fun e => (kv.1, ErrVal.exc e)))).isEmpty = true
  · simp [dictTypeValidate, multiTypeValidate, runValidators, dictValidateItems,
      herr, hemp]
  · simp [dictTypeValidate, multiTypeValidate, runValidators, dictValidateItems,
      herr, hemp]

/-- Claim C8, witness: values `0` under keys `"a"` and `"c"` fail while
`"b"` passes, giving one aggregate error with exactly those two keys and
the stored per-key exceptions. -/
theorem dictTypeValidate_spec_witness :
    dictTypeValidate
        (fun v => match v with
          | PyVal.int 0 => Option.some (ErrVal.msg "bad")
          | _ => Option.none)
        (PyVal.dict [("a", PyVal.int 0), ("b", PyVal.int 1), ("c", PyVal.int 0)])
        PyVal.none
      = .error (.validation (.map
          [("a", ErrVal.exc (ErrVal.msg "bad")),
           ("c", ErrVal.exc (ErrVal.msg "bad"))])) := by
  have h := dictTypeValidate_spec
    (fun v => match v with
      | PyVal.int 0 => Option.some (ErrVal.msg "bad")
      | _ => Option.none)
    [("a", PyVal.int 0), ("b", PyVal.int 1), ("c", PyVal.int 0)]
    PyVal.none (by decide)
  exact h.trans rfl

/-- Parsing the canonical keys back recovers the numeric keys. -/
theorem optionMapList_pyInt_keys :
    ∀ (parsed : List (Int × PyVal)),
      (∀ p ∈ parsed, pyInt (intToStr p.1) = Option.some p.1) →
      optionMapList pyInt
          ((parsed.map (fun p => (intToStr p.1, p.2))).map Prod.fst)
        = Option.some (parsed.map Prod.fst) := by
  intro parsed
  induction parsed with
  | nil => intro _; rfl
  | cons p t ih =>
    intro hp
    simp only [List.map_cons, optionMapList]
    rw [hp p (by simp), ih (fun q hq => hp q (List.mem_cons_of_mem _ hq))]

/-- Taking first components commutes with the key-ordered insertion. -/
theorem map_fst_orderedInsert (p : Int × PyVal) :
    ∀ (L : List (Int × PyVal)),
      (L.orderedInsert (fun a b => a.1 ≤ b.1) p).map Prod.fst
        = (L.map Prod.fst).orderedInsert (fun a b => a ≤ b) p.1 := by
  intro L
  induction L with
  | nil => rfl
  | cons q t ih =>
    by_cases h : p.1 ≤ q.1 <;>
      simp [List.orderedInsert, h, ih]

/-- Taking first components commutes with sorting the entries by key. -/
theorem map_fst_sortEntriesByKey (parsed : List (Int × PyVal)) :
    (sortEntriesByKey parsed).map Prod.fst = pySortedInts (parsed.map Prod.fst) := by
  induction parsed with
  | nil => rfl
  | cons p t ih =>
    simp only [sortEntriesByKey, pySortedInts, List.insertionSort] at ih ⊢
    rw [map_fst_orderedInsert, ih]

/-- With canonical pairwise distinct keys, reading the dict back at a
numeric key's decimal string finds that key's value. -/
theorem dictGet_canonical :
    ∀ (parsed : List (Int × PyVal)),
      (∀ p ∈ parsed, pyInt (intToStr p.1) = Option.some p.1) →
      ((parsed.map (fun p => (intToStr p.1, p.2))).map Prod.fst).Nodup →
      ∀ q ∈ parsed,
        dictGet (parsed.map (fun p => (intToStr p.1, p.2))) (intToStr q.1)
          = Option.some q.2 := by
  intro parsed
  induction parsed with
  | nil => intro _ _ q hq; cases hq
  | cons p t ih =>
    intro hp hnd q hq
    have hndt : ((t.map (fun p => (intToStr p.1, p.2))).map Prod.fst).Nodup :=
      (List.nodup_cons.mp (by simpa using hnd)).2
    have hhead : intToStr p.1 ∉ (t.map (fun p => (intToStr p.1, p.2))).map Prod.fst :=
      (List.nodup_cons.mp (by simpa using hnd)).1
    rcases List.mem_cons.mp hq with rfl | hq'
    · simp [dictGet, List.find?]
    · have hne : (intToStr p.1 == intToStr q.1) = false := by
        apply beq_eq_false_iff_ne.mpr
        intro heq
        have h1 := hp p (by simp)
        have h2 := hp q (List.mem_cons_of_mem _ hq')
        rw [heq, h2] at h1
        have hkq : p.1 = q.1 := (Option.some.injEq _ _).mp h1.symm |>.symm ▸ rfl
        exact hhead (heq ▸ (by
          simpa using List.mem_map_of_mem (fun r => intToStr r.1) hq'))
      have hrec := ih (fun r hr => hp r (List.mem_cons_of_mem _ hr)) hndt q hq'
      simpa [dictGet, List.find?, hne] using hrec

/-- Reading the sorted keys back through the dict yields the sorted
values. -/
theorem optionMapList_dictGet (entries : List (String × PyVal)) :
    ∀ (L : List (Int × PyVal)),
      (∀ q ∈ L, dictGet entries (intToStr q.1) = Option.some q.2) →
      optionMapList (fun k => dictGet entries (intToStr k)) (L.map Prod.fst)
        = Option.some (L.map Prod.snd) := by
  intro L
  induction L with
  | nil => intro _; rfl
  | cons q t ih =>
    intro hl
    simp only [List.map_cons, optionMapList]
    rw [hl q (by simp), ih (fun r hr => hl r (List.mem_cons_of_mem _ hr))]

/-- Claim C5: `ListType.to_native` applied to a mapping whose keys are the
decimal strings of integers yields that mapping's values read in
numerically ascending key order, each then coerced through the inner
field: `_force_list` returns exactly the values of the entries sorted by
numeric key (`sortEntriesByKey`, whose key sequence is sorted and which
permutes the input), and `to_native` maps the inner coercion over them. -/
theorem listTypeToNative_numeric_keyed_dict :
    ∀ (f : PyVal → Except PyErr PyVal) (parsed : List (Int × PyVal)),
      (∀ p ∈ parsed, pyInt (intToStr p.1) = Option.some p.1) →
      ((parsed.map (fun p => (intToStr p.1, p.2))).map Prod.fst).Nodup →
      (forceList (PyVal.dict (parsed.map (fun p => (intToStr p.1, p.2))))
          = .ok ((sortEntriesByKey parsed).map Prod.snd))
      ∧ (listTypeToNative f (PyVal.dict (parsed.map (fun p => (intToStr p.1, p.2))))
          = exceptMapList f ((sortEntriesByKey parsed).map Prod.snd))
      ∧ ((sortEntriesByKey parsed).map Prod.fst).Sorted (fun a b => a ≤ b)
      ∧ (sortEntriesByKey parsed).Perm parsed := by
  intro f parsed hp hnd
  haveI : IsTotal (Int × PyVal) (fun a b => a.1 ≤ b.1) :=
    ⟨fun a b => le_total a.1 b.1⟩
  haveI : IsTrans (Int × PyVal) (fun a b => a.1 ≤ b.1) :=
    ⟨fun _ _ _ hab hbc => le_trans hab hbc⟩
  have hperm : (sortEntriesByKey parsed).Perm parsed := by
    unfold sortEntriesByKey
    exact List.perm_insertionSort _ parsed
  have hlookup : ∀ q ∈ sortEntriesByKey parsed,
      dictGet (parsed.map (fun p => (intToStr p.1, p.2))) (intToStr q.1)
        = Option.some q.2 :=
    fun q hq => dictGet_canonical parsed hp hnd q (hperm.subset hq)
  have h1 := optionMapList_pyInt_keys parsed hp
  have h2 : optionMapList
      (fun k => dictGet (parsed.map (fun p => (intToStr p.1, p.2))) (intToStr k))
      (pySortedInts (parsed.map Prod.fst))
      = Option.some ((sortEntriesByKey parsed).map Prod.snd) := by
    rw [← map_fst_sortEntriesByKey]
    exact optionMapList_dictGet _ (sortEntriesByKey parsed) hlookup
  have hforce : forceList (PyVal.dict (parsed.map (fun p => (intToStr p.1, p.2))))
      = .ok ((sortEntriesByKey parsed).map Prod.snd) := by
    simp only [forceList, h1, h2]
  refine ⟨hforce, ?_, ?_, hperm⟩
  · simp only [listTypeToNative, hforce]
  · have hs : (sortEntriesByKey parsed).Sorted (fun a b => a.1 ≤ b.1) :=
      List.sorted_insertionSort (fun a b => a.1 ≤ b.1) parsed
    simpa [List.Sorted, List.pairwise_map] using hs

/-- Claim C5, witness: the spec's concrete instance — input
`{"1": "b", "0": "a"}` yields `["a", "b"]` despite the reversed key
order, under the identity inner coercion. -/
theorem listTypeToNative_numeric_keyed_dict_witness :
    forceList (PyVal.dict [("1", PyVal.str "b"), ("0", PyVal.str "a")])
        = .ok [PyVal.str "a", PyVal.str "b"]
    ∧ listTypeToNative (fun v => .ok v)
          (PyVal.dict [("1", PyVal.str "b"), ("0", PyVal.str "a")])
        = .ok [PyVal.str "a", PyVal.str "b"] := by
  have h := listTypeToNative_numeric_keyed_dict (fun v => .ok v)
      [(1, PyVal.str "b"), (0, PyVal.str "a")] (by decide) (by decide)
  exact ⟨h.1.trans rfl, h.2.1.trans rfl⟩

end Schematics
